import Mathlib

/-!
# Conversores_AD.c : debounced button handlers and signal mapping

Shallow embedding of `src/Conversores_AD.c`.

* `uint32_t` values are naturals; the unsigned subtraction of the debounce
  test is written with an explicit reduction modulo `2^32`.
* `int` values are integers; the product of `map_adc_to_coord` is reduced to
  the 32-bit signed range and `/` is division truncating toward zero.
* The five `volatile` globals form the record `Globals`; each interrupt
  handler is a function from the clock reading and the globals before the
  call to the globals after it.
* One iteration of the main loop is a function from the two ADC samples and
  the values of its three reads of `volatile` globals to the list of calls it
  makes to the PWM, the display and the timer, in program order.  An interrupt
  handler runs to completion between two steps of the loop.
-/

namespace ConversoresAD

/-! ## Constants -/

/-- Width of the display in pixels (`#define DISPLAY_WIDTH 128`). -/
def DISPLAY_WIDTH : Int := 128

/-- Height of the display in pixels (`#define DISPLAY_HEIGHT 64`). -/
def DISPLAY_HEIGHT : Int := 64

/-- Side of the moving square in pixels (`#define SQUARE_SIZE 8`). -/
def SQUARE_SIZE : Int := 8

/-- Minimum time between two accepted presses, in microseconds
(`#define DEBOUNCE_DELAY_US 200000`). -/
def DEBOUNCE_DELAY_US : Nat := 200000

/-! ## Machine arithmetic -/

/-- Unsigned 32-bit subtraction `a - b` of C: the difference modulo `2^32`. -/
def sub_u32 (a b : Nat) : Nat :=
  (a % 4294967296 + 4294967296 - b % 4294967296) % 4294967296

/-- Reduction of a mathematical integer to the value that a 32-bit signed `int`
holds after wrapping modulo `2^32` (range `-2^31 .. 2^31 - 1`). -/
def wrap_i32 (x : Int) : Int :=
  (x + 2147483648) % 4294967296 - 2147483648

/-- Reading of the 32-bit microsecond clock `time_us_32()` at true time `t`
(microseconds since the clock started): the low 32 bits of `t`. -/
def time_us_32 (t : Nat) : Nat := t % 4294967296

/-! ## Shared state -/

/-- The `volatile` globals of the program (lines 40-44 of the source). -/
structure Globals where
  led_green_on : Bool
  led_pwm_enabled : Bool
  last_debounce_time_joystick : Nat
  last_debounce_time_buttonA : Nat
  border_style : Int
deriving DecidableEq, Repr

/-- The globals as their initialisers leave them at power-on. -/
def power_on : Globals :=
  { led_green_on := false
    led_pwm_enabled := true
    last_debounce_time_joystick := 0
    last_debounce_time_buttonA := 0
    border_style := 0 }

/-! ## Interrupt handlers -/

/-- Handler `joystick_button_callback`.  The parameters `gpio` and `events` of the
C function are not used by its body and are left out; `now` is the value read
from `time_us_32()` on entry. -/
def joystick_button_callback (now : Nat) (s : Globals) : Globals :=
  if sub_u32 now s.last_debounce_time_joystick < DEBOUNCE_DELAY_US then s
  else
    { s with
      last_debounce_time_joystick := now
      led_green_on := !s.led_green_on
      border_style := if s.border_style = 0 then 1 else 0 }

/-- Handler `button_a_callback`.  The parameters `gpio` and `events` of the C
function are not used by its body and are left out; `now` is the value read
from `time_us_32()` on entry. -/
def button_a_callback (now : Nat) (s : Globals) : Globals :=
  if sub_u32 now s.last_debounce_time_buttonA < DEBOUNCE_DELAY_US then s
  else
    { s with
      last_debounce_time_buttonA := now
      led_pwm_enabled := !s.led_pwm_enabled }

/-- Observation that a joystick event was accepted: the call changed the
control bit `led_green_on`. -/
def joystick_accepted (now : Nat) (s : Globals) : Bool :=
  (joystick_button_callback now s).led_green_on != s.led_green_on

/-- Observation that a button-A event was accepted: the call changed the
control bit `led_pwm_enabled`. -/
def button_a_accepted (now : Nat) (s : Globals) : Bool :=
  (button_a_callback now s).led_pwm_enabled != s.led_pwm_enabled

/-- Globals after a handler has served, in order, the edge events that occur at
the true times `ts`; each call reads the clock at the time of its event. -/
def run_events (handler : Nat → Globals → Globals) : Globals → List Nat → Globals
  | s, [] => s
  | s, t :: ts => run_events handler (handler (time_us_32 t) s) ts

/-- For the edge events at the true times `ts`, served in order from the
globals `s`: the list saying, event by event, whether it was accepted. -/
def trace_events (handler : Nat → Globals → Globals) (accepted : Nat → Globals → Bool) :
    Globals → List Nat → List Bool
  | _, [] => []
  | s, t :: ts =>
    accepted (time_us_32 t) s :: trace_events handler accepted (handler (time_us_32 t) s) ts

/-! ## Signal mapper -/

/-- Function `map_adc_to_coord`: `(adc_value * max_coord) / 4095` in `int`
arithmetic.  The `uint16_t` sample is promoted to `int`, the product wraps
modulo `2^32`, and the division truncates toward zero. -/
def map_adc_to_coord (adc_value : Nat) (max_coord : Int) : Int :=
  Int.tdiv (wrap_i32 ((adc_value : Int) * max_coord)) 4095

/-- Reference formula of the specification for the coordinate mapping
(`mapToCoordinate`): the mathematical floor of `sample * maxCoord / 4095`,
computed over the rationals. -/
def mapToCoordinate_spec (sample : Nat) (maxCoord : Int) : Int :=
  Int.floor (((sample : ℚ) * (maxCoord : ℚ)) / 4095)

/-- Value of the macro `LED_PWM_WRAP`: wrap value of the 8-bit LED PWM. -/
def LED_PWM_WRAP : Nat := 255

/-- Pin of the red LED (`#define LED_RED_PIN 11`). -/
def LED_RED_PIN : Nat := 11

/-- Pin of the blue LED (`#define LED_BLUE_PIN 12`). -/
def LED_BLUE_PIN : Nat := 12

/-- Pin of the green LED (`#define LED_GREEN_PIN 13`). -/
def LED_GREEN_PIN : Nat := 13

/-- Conversion of an `int` value to `uint` (32 bits): reduction modulo `2^32`. -/
def to_u32 (x : Int) : Nat := (x % 4294967296).toNat

/-- First statement of `map_adc_to_brightness`: the local `diff`, distance of
the sample from the centre value 2048, computed in `int`. -/
def brightness_diff (adc_value : Nat) : Int :=
  if adc_value > 2048 then (adc_value : Int) - 2048 else 2048 - (adc_value : Int)

/-- Function `map_adc_to_brightness`: `(diff * LED_PWM_WRAP) / 2048` in `int`
arithmetic (the product wraps modulo `2^32`, the division truncates toward
zero), stored in a `uint` and clamped to `LED_PWM_WRAP`. -/
def map_adc_to_brightness (adc_value : Nat) : Nat :=
  let diff : Int := brightness_diff adc_value
  let brightness : Nat := to_u32 (Int.tdiv (wrap_i32 (diff * (LED_PWM_WRAP : Int))) 2048)
  if brightness > LED_PWM_WRAP then LED_PWM_WRAP else brightness

/-- Reference formula of the specification for the brightness mapping
(`mapToBrightness`): `min(255, floor(|sample - 2048| * 255 / 2048))`, computed
over the rationals. -/
def mapToBrightness_spec (sample : Nat) : Int :=
  min 255 (Int.floor (|(sample : ℚ) - 2048| * 255 / 2048))

/-! ## Render/output cycle -/

/-- Calls that one iteration of the main loop makes to the PWM, display and
timing collaborators.  `pwm_set_chan_level gpio level` stands for the call
`pwm_set_chan_level(slice, channel, level)` that `set_led_brightness` makes for
the slice and channel of the pin `gpio`; the display calls carry their
arguments after `&ssd`. -/
inductive Call where
  | pwm_set_chan_level (gpio : Nat) (level : Nat)
  | ssd1306_clear
  | ssd1306_draw_rect (x y w h : Int) (value : Bool)
  | ssd1306_fill_rect (x y w h : Int) (value : Bool)
  | ssd1306_show
  | sleep_ms (ms : Nat)
deriving DecidableEq, Repr

/-- Function `set_led_brightness`: looks up the slice and the channel of the
pin and sets the channel level to `brightness`. -/
def set_led_brightness (gpio : Nat) (brightness : Nat) : Call :=
  Call.pwm_set_chan_level gpio brightness

/-- Body of the `while (true)` loop of `main`, as a function of the two ADC
samples and of the values that its three reads of `volatile` globals return:
`led_pwm_enabled` (line 159), `led_green_on` (line 165) and `border_style`
(line 173).  The result is the list of collaborator calls in program order. -/
def tick_reads (adc_x adc_y : Nat) (led_pwm_enabled led_green_on : Bool)
    (border_style : Int) : List Call :=
  let brightness_red : Nat := if !led_pwm_enabled then 0 else map_adc_to_brightness adc_x
  let brightness_blue : Nat := if !led_pwm_enabled then 0 else map_adc_to_brightness adc_y
  let square_x : Int := map_adc_to_coord adc_x (DISPLAY_WIDTH - SQUARE_SIZE)
  let square_y : Int := map_adc_to_coord adc_y (DISPLAY_HEIGHT - SQUARE_SIZE)
  [ set_led_brightness LED_RED_PIN brightness_red,
    set_led_brightness LED_BLUE_PIN brightness_blue,
    set_led_brightness LED_GREEN_PIN (if led_green_on then LED_PWM_WRAP else 0),
    Call.ssd1306_clear ]
  ++ (if border_style = 0 then
        [ Call.ssd1306_draw_rect 0 0 DISPLAY_WIDTH DISPLAY_HEIGHT true ]
      else
        [ Call.ssd1306_draw_rect 0 0 DISPLAY_WIDTH DISPLAY_HEIGHT true,
          Call.ssd1306_draw_rect 2 2 (DISPLAY_WIDTH - 4) (DISPLAY_HEIGHT - 4) true ])
  ++ [ Call.ssd1306_fill_rect square_x square_y SQUARE_SIZE SQUARE_SIZE true,
       Call.ssd1306_show,
       Call.sleep_ms 50 ]

/-- One iteration of the main loop that no interrupt preempts: all three reads
see the same globals `s`. -/
def tick (adc_x adc_y : Nat) (s : Globals) : List Call :=
  tick_reads adc_x adc_y s.led_pwm_enabled s.led_green_on s.border_style

/-- The PWM duty levels pushed by a list of calls, as pairs of pin and level,
in order. -/
def pwm_calls : List Call → List (Nat × Nat)
  | [] => []
  | Call.pwm_set_chan_level gpio level :: cs => (gpio, level) :: pwm_calls cs
  | _ :: cs => pwm_calls cs

/-- The display calls of a list of calls, in order. -/
def display_calls : List Call → List Call
  | [] => []
  | Call.pwm_set_chan_level _ _ :: cs => display_calls cs
  | Call.sleep_ms _ :: cs => display_calls cs
  | c :: cs => c :: display_calls cs

/-- Globals that the read number `i` of a tick sees (0: `led_pwm_enabled`,
1: `led_green_on`, 2: `border_style`) when a joystick-button interrupt with
clock reading `now` is served after the tick has made `k` of its three reads.
The handler runs to completion before the loop resumes. -/
def globals_at_read (k now : Nat) (s : Globals) (i : Nat) : Globals :=
  if i < k then s else joystick_button_callback now s

/-- One iteration of the main loop, started with globals `s`, that a
joystick-button interrupt with clock reading `now` preempts after `k` of its
three reads of `volatile` globals. -/
def tick_preempted (k now : Nat) (adc_x adc_y : Nat) (s : Globals) : List Call :=
  tick_reads adc_x adc_y
    (globals_at_read k now s 0).led_pwm_enabled
    (globals_at_read k now s 1).led_green_on
    (globals_at_read k now s 2).border_style

/-! ## Sequences of button events -/

/-- An edge event of one of the two buttons, with the clock reading of its
handler. -/
inductive Event where
  | joystick_button (now : Nat)
  | button_a (now : Nat)
deriving DecidableEq, Repr

/-- The handler call that serves an event. -/
def handle_event : Event → Globals → Globals
  | Event.joystick_button now, s => joystick_button_callback now s
  | Event.button_a now, s => button_a_callback now s

/-- Globals after the handlers have served a list of events in order. -/
def handle_events : Globals → List Event → Globals
  | s, [] => s
  | s, e :: es => handle_events (handle_event e s) es

/-! ## Basic facts about the handlers -/

/-- The model of the unsigned subtraction is the integer difference reduced
modulo `2^32`. -/
theorem sub_u32_eq_emod (a b : Nat) :
    (sub_u32 a b : Int) = ((a : Int) - (b : Int)) % 4294967296 := by
  unfold sub_u32
  omega

theorem joystick_discard (now : Nat) (s : Globals)
    (h : sub_u32 now s.last_debounce_time_joystick < 200000) :
    joystick_button_callback now s = s := by
  simp [joystick_button_callback, DEBOUNCE_DELAY_US, h]

theorem joystick_accept (now : Nat) (s : Globals)
    (h : 200000 ≤ sub_u32 now s.last_debounce_time_joystick) :
    joystick_button_callback now s =
      { s with
        last_debounce_time_joystick := now
        led_green_on := !s.led_green_on
        border_style := if s.border_style = 0 then 1 else 0 } := by
  simp [joystick_button_callback, DEBOUNCE_DELAY_US, Nat.not_lt.mpr h]

theorem button_a_discard (now : Nat) (s : Globals)
    (h : sub_u32 now s.last_debounce_time_buttonA < 200000) :
    button_a_callback now s = s := by
  simp [button_a_callback, DEBOUNCE_DELAY_US, h]

theorem button_a_accept (now : Nat) (s : Globals)
    (h : 200000 ≤ sub_u32 now s.last_debounce_time_buttonA) :
    button_a_callback now s =
      { s with
        last_debounce_time_buttonA := now
        led_pwm_enabled := !s.led_pwm_enabled } := by
  simp [button_a_callback, DEBOUNCE_DELAY_US, Nat.not_lt.mpr h]

theorem joystick_accepted_iff (now : Nat) (s : Globals) :
    joystick_accepted now s = true ↔ 200000 ≤ sub_u32 now s.last_debounce_time_joystick := by
  unfold joystick_accepted
  rcases Nat.lt_or_ge (sub_u32 now s.last_debounce_time_joystick) 200000 with h | h
  · rw [joystick_discard now s h]
    simp
    exact h
  · rw [joystick_accept now s h]
    simp
    exact h

theorem button_a_accepted_iff (now : Nat) (s : Globals) :
    button_a_accepted now s = true ↔ 200000 ≤ sub_u32 now s.last_debounce_time_buttonA := by
  unfold button_a_accepted
  rcases Nat.lt_or_ge (sub_u32 now s.last_debounce_time_buttonA) 200000 with h | h
  · rw [button_a_discard now s h]
    simp
    exact h
  · rw [button_a_accept now s h]
    simp
    exact h

/-- The wrapped difference of the clock readings at two true times less than
`2^32` apart is the true elapsed time. -/
theorem sub_u32_readings (t1 t2 : Nat) (h12 : t1 ≤ t2) (hlt : t2 - t1 < 4294967296) :
    sub_u32 (t2 % 4294967296) (t1 % 4294967296) = t2 - t1 := by
  unfold sub_u32
  omega

/-- The wrapped difference of the readings at `t + d` and `t` is `d`. -/
theorem sub_u32_shift (t d : Nat) (hd : d < 4294967296) :
    sub_u32 (time_us_32 (t + d)) (time_us_32 t) = d := by
  unfold sub_u32 time_us_32
  omega

/-- Trace and final globals of the four-event burst `t, t+50ms, t+100ms, t+250ms`
for any handler that follows the debounce discipline on the timer `last`, when
the first event is accepted. -/
theorem burst_of_discipline (handler : Nat → Globals → Globals)
    (accepted : Nat → Globals → Bool) (last : Globals → Nat)
    (hiff : ∀ now s, accepted now s = true ↔ 200000 ≤ sub_u32 now (last s))
    (hacc : ∀ now s, 200000 ≤ sub_u32 now (last s) → last (handler now s) = now)
    (hrej : ∀ now s, sub_u32 now (last s) < 200000 → handler now s = s)
    (s : Globals) (t : Nat) (h0 : 200000 ≤ sub_u32 (time_us_32 t) (last s)) :
    trace_events handler accepted s [t, t + 50000, t + 100000, t + 250000]
        = [true, false, false, true]
    ∧ run_events handler s [t, t + 50000, t + 100000, t + 250000]
        = handler (time_us_32 (t + 250000)) (handler (time_us_32 t) s) := by
  have hl := hacc _ _ h0
  have a1 := (hiff _ _).mpr h0
  have h2 : sub_u32 (time_us_32 (t + 50000)) (last (handler (time_us_32 t) s)) < 200000 := by
    rw [hl, sub_u32_shift _ _ (by norm_num)]; norm_num
  have h3 : sub_u32 (time_us_32 (t + 100000)) (last (handler (time_us_32 t) s)) < 200000 := by
    rw [hl, sub_u32_shift _ _ (by norm_num)]; norm_num
  have h4 : 200000 ≤ sub_u32 (time_us_32 (t + 250000)) (last (handler (time_us_32 t) s)) := by
    rw [hl, sub_u32_shift _ _ (by norm_num)]; norm_num
  have a2 : accepted (time_us_32 (t + 50000)) (handler (time_us_32 t) s) = false := by
    rw [Bool.eq_false_iff]; intro h; have := (hiff _ _).mp h; omega
  have a3 : accepted (time_us_32 (t + 100000)) (handler (time_us_32 t) s) = false := by
    rw [Bool.eq_false_iff]; intro h; have := (hiff _ _).mp h; omega
  have a4 := (hiff _ _).mpr h4
  simp only [trace_events, run_events, a1, hrej _ _ h2, hrej _ _ h3, a2, a3, a4, and_self]

/-- Once the timer of a debounced handler holds the reading of the true time
`T0`, every later event that is accepted lies at least 200 ms after `T0`. -/
theorem accepted_after_of_discipline (handler : Nat → Globals → Globals)
    (accepted : Nat → Globals → Bool) (last : Globals → Nat)
    (hiff : ∀ now s, accepted now s = true ↔ 200000 ≤ sub_u32 now (last s))
    (hacc : ∀ now s, 200000 ≤ sub_u32 now (last s) → last (handler now s) = now)
    (hrej : ∀ now s, sub_u32 now (last s) < 200000 → handler now s = s) :
    ∀ (ts : List Nat) (T0 : Nat) (s : Globals), last s = time_us_32 T0 →
      (∀ t ∈ ts, T0 ≤ t) → ts.Pairwise (fun a b => a ≤ b) → ∀ j : Nat,
      (trace_events handler accepted s ts).getD j false = true →
      T0 + 200000 ≤ ts.getD j 0 := by
  intro ts
  induction ts with
  | nil => intro T0 s _ _ _ j h; simp [trace_events] at h
  | cons t rest ih =>
    intro T0 s hs hge hsorted j h
    have hT0 : T0 ≤ t := hge t (List.mem_cons_self _ _)
    rw [List.pairwise_cons] at hsorted
    cases j with
    | zero =>
      simp only [trace_events, List.getD_cons_zero] at h ⊢
      have h1 := (hiff _ _).mp h
      rw [hs] at h1
      unfold sub_u32 time_us_32 at h1
      omega
    | succ j =>
      simp only [trace_events, List.getD_cons_succ] at h ⊢
      rcases Nat.lt_or_ge (sub_u32 (time_us_32 t) (last s)) 200000 with hlt | hge2
      · rw [hrej _ _ hlt] at h
        exact ih T0 s hs (fun u hu => hge u (List.mem_cons_of_mem _ hu)) hsorted.2 j h
      · have := ih t _ (hacc _ _ hge2) hsorted.1 hsorted.2 j h
        omega

/-- Two accepted events of a debounced handler are at least 200 ms apart. -/
theorem window_of_discipline (handler : Nat → Globals → Globals)
    (accepted : Nat → Globals → Bool) (last : Globals → Nat)
    (hiff : ∀ now s, accepted now s = true ↔ 200000 ≤ sub_u32 now (last s))
    (hacc : ∀ now s, 200000 ≤ sub_u32 now (last s) → last (handler now s) = now)
    (hrej : ∀ now s, sub_u32 now (last s) < 200000 → handler now s = s) :
    ∀ (ts : List Nat) (s : Globals), ts.Pairwise (fun a b => a ≤ b) → ∀ i j : Nat, i < j →
      (trace_events handler accepted s ts).getD i false = true →
      (trace_events handler accepted s ts).getD j false = true →
      ts.getD i 0 + 200000 ≤ ts.getD j 0 := by
  intro ts
  induction ts with
  | nil => intro s _ i j _ h; simp [trace_events] at h
  | cons t rest ih =>
    intro s hsorted i j hij hi hj
    rw [List.pairwise_cons] at hsorted
    cases j with
    | zero => omega
    | succ j =>
      cases i with
      | zero =>
        simp only [trace_events, List.getD_cons_zero, List.getD_cons_succ] at hi hj ⊢
        exact accepted_after_of_discipline handler accepted last hiff hacc hrej rest t _
          (hacc _ _ ((hiff _ _).mp hi)) hsorted.1 hsorted.2 j hj
      | succ i =>
        simp only [trace_events, List.getD_cons_succ] at hi hj ⊢
        exact ih _ hsorted.2 i j (by omega) hi hj

/-! ## Debounced event latch: the four-event burst and the first event -/

/-- Claim C1, refuted as stated: from the power-on state, the burst that starts
100 ms after the clock started (`t = 100000`) does not have its events at `t`
and `t + 250 ms` accepted.  For both buttons the event at `t` is discarded, the
one at `t + 100 ms` is accepted and the one at `t + 250 ms` is discarded. -/
theorem burst_at_100ms_counterexample :
    trace_events joystick_button_callback joystick_accepted power_on
        [100000, 100000 + 50000, 100000 + 100000, 100000 + 250000]
      = [false, false, true, false]
    ∧ trace_events button_a_callback button_a_accepted power_on
        [100000, 100000 + 50000, 100000 + 100000, 100000 + 250000]
      = [false, false, true, false] := by
  decide

/-- Claim C1, amended: from the power-on state, for every true time `t` whose
32-bit clock reading `t mod 2^32` is at least 200000, each handler fed the four
edge events at `t`, `t + 50000`, `t + 100000` and `t + 250000` accepts exactly
the first and the last one; afterwards both control bits of that button are
back at their power-on values (two toggles) and its timer holds the reading of
`t + 250000`. -/
theorem burst_two_toggles (t : Nat) (ht : 200000 ≤ t % 4294967296) :
    (trace_events joystick_button_callback joystick_accepted power_on
        [t, t + 50000, t + 100000, t + 250000] = [true, false, false, true]
    ∧ run_events joystick_button_callback power_on [t, t + 50000, t + 100000, t + 250000]
        = { power_on with last_debounce_time_joystick := (t + 250000) % 4294967296 })
    ∧ (trace_events button_a_callback button_a_accepted power_on
        [t, t + 50000, t + 100000, t + 250000] = [true, false, false, true]
    ∧ run_events button_a_callback power_on [t, t + 50000, t + 100000, t + 250000]
        = { power_on with last_debounce_time_buttonA := (t + 250000) % 4294967296 }) := by
  have hz : sub_u32 (time_us_32 t) 0 = t % 4294967296 := by
    unfold sub_u32 time_us_32; omega
  have hs : sub_u32 (time_us_32 (t + 250000)) (time_us_32 t) = 250000 :=
    sub_u32_shift _ _ (by norm_num)
  constructor
  · have h0 : 200000 ≤ sub_u32 (time_us_32 t) power_on.last_debounce_time_joystick := by
      show 200000 ≤ sub_u32 (time_us_32 t) 0
      omega
    obtain ⟨h1, h2⟩ := burst_of_discipline joystick_button_callback joystick_accepted
      (fun s => s.last_debounce_time_joystick) joystick_accepted_iff
      (fun now s h => by rw [joystick_accept now s h])
      joystick_discard power_on t h0
    refine ⟨h1, ?_⟩
    rw [h2, joystick_accept _ _ h0,
      joystick_accept _ _ (by show 200000 ≤ sub_u32 _ (time_us_32 t); omega)]
    simp [power_on, time_us_32]
  · have h0 : 200000 ≤ sub_u32 (time_us_32 t) power_on.last_debounce_time_buttonA := by
      show 200000 ≤ sub_u32 (time_us_32 t) 0
      omega
    obtain ⟨h1, h2⟩ := burst_of_discipline button_a_callback button_a_accepted
      (fun s => s.last_debounce_time_buttonA) button_a_accepted_iff
      (fun now s h => by rw [button_a_accept now s h])
      button_a_discard power_on t h0
    refine ⟨h1, ?_⟩
    rw [h2, button_a_accept _ _ h0,
      button_a_accept _ _ (by show 200000 ≤ sub_u32 _ (time_us_32 t); omega)]
    simp [power_on, time_us_32]

/-- Witness of claim C1: the burst that starts one second after the
clock started. -/
theorem burst_two_toggles_witness :
    200000 ≤ 1000000 % 4294967296
    ∧ trace_events joystick_button_callback joystick_accepted power_on
        [1000000, 1000000 + 50000, 1000000 + 100000, 1000000 + 250000]
      = [true, false, false, true]
    ∧ trace_events button_a_callback button_a_accepted power_on
        [1000000, 1000000 + 50000, 1000000 + 100000, 1000000 + 250000]
      = [true, false, false, true] :=
  ⟨by decide, (burst_two_toggles 1000000 (by decide)).1.1,
    (burst_two_toggles 1000000 (by decide)).2.1⟩

/-- Claim C2, refuted as stated: in the power-on state a first edge whose clock
reading is 100000 is not accepted by either handler; the control bit keeps its
value and the timer does not record the reading. -/
theorem first_event_at_100ms_counterexample :
    ((joystick_button_callback 100000 power_on).led_green_on = power_on.led_green_on
      ∧ (joystick_button_callback 100000 power_on).last_debounce_time_joystick ≠ 100000)
    ∧ ((button_a_callback 100000 power_on).led_pwm_enabled = power_on.led_pwm_enabled
      ∧ (button_a_callback 100000 power_on).last_debounce_time_buttonA ≠ 100000) := by
  decide

/-- Claim C2, amended: in the power-on state the first edge event of each
button is accepted when its 32-bit clock reading `now` is at least 200000: the
first call of either handler then performs its toggle and records `now`.  A
first edge with `now < 200000` is discarded and leaves the globals as they are. -/
theorem first_event_accepted_from_200ms (now : Nat) (hnow : now < 4294967296) :
    (200000 ≤ now →
      ((joystick_button_callback now power_on).led_green_on = !power_on.led_green_on
        ∧ (joystick_button_callback now power_on).border_style = 1
        ∧ (joystick_button_callback now power_on).last_debounce_time_joystick = now)
      ∧ ((button_a_callback now power_on).led_pwm_enabled = !power_on.led_pwm_enabled
        ∧ (button_a_callback now power_on).last_debounce_time_buttonA = now))
    ∧ (now < 200000 →
      joystick_button_callback now power_on = power_on
      ∧ button_a_callback now power_on = power_on) := by
  have hz : sub_u32 now 0 = now := by unfold sub_u32; omega
  constructor
  · intro h
    have hj : 200000 ≤ sub_u32 now power_on.last_debounce_time_joystick := by
      show 200000 ≤ sub_u32 now 0
      omega
    have ha : 200000 ≤ sub_u32 now power_on.last_debounce_time_buttonA := by
      show 200000 ≤ sub_u32 now 0
      omega
    rw [joystick_accept now power_on hj, button_a_accept now power_on ha]
    simp [power_on]
  · intro h
    exact ⟨joystick_discard now power_on (by show sub_u32 now 0 < 200000; omega),
      button_a_discard now power_on (by show sub_u32 now 0 < 200000; omega)⟩

/-- Witness of claim C2: a first edge exactly 200 ms
after the clock started is accepted by the joystick handler. -/
theorem first_event_accepted_from_200ms_witness :
    200000 < 4294967296
    ∧ (joystick_button_callback 200000 power_on).led_green_on = true
    ∧ (joystick_button_callback 200000 power_on).last_debounce_time_joystick = 200000 :=
  ⟨by decide,
    ((first_event_accepted_from_200ms 200000 (by decide)).1 (by decide)).1.1,
    ((first_event_accepted_from_200ms 200000 (by decide)).1 (by decide)).1.2.2⟩

/-! ## Debounced event latch: the 200 ms window -/

/-- Claim C3: for every starting state and every sequence of edge events of one
button at non-decreasing true times `ts` (each call sees the 32-bit reading of
its time), any two distinct events `i < j` of the sequence that are both
accepted have true times at least 200000 microseconds apart.  Stated for the
joystick handler and for the button-A handler. -/
theorem at_most_one_toggle_per_window (s : Globals) (ts : List Nat)
    (hmono : ts.Pairwise (fun a b => a ≤ b)) (i j : Nat) (hij : i < j) :
    ((trace_events joystick_button_callback joystick_accepted s ts).getD i false = true →
      (trace_events joystick_button_callback joystick_accepted s ts).getD j false = true →
      ts.getD i 0 + 200000 ≤ ts.getD j 0)
    ∧ ((trace_events button_a_callback button_a_accepted s ts).getD i false = true →
      (trace_events button_a_callback button_a_accepted s ts).getD j false = true →
      ts.getD i 0 + 200000 ≤ ts.getD j 0) :=
  ⟨window_of_discipline joystick_button_callback joystick_accepted
      (fun s => s.last_debounce_time_joystick) joystick_accepted_iff
      (fun now s h => by rw [joystick_accept now s h]) joystick_discard ts s hmono i j hij,
   window_of_discipline button_a_callback button_a_accepted
      (fun s => s.last_debounce_time_buttonA) button_a_accepted_iff
      (fun now s h => by rw [button_a_accept now s h]) button_a_discard ts s hmono i j hij⟩

/-- Witness of claim C3: of the three joystick events
at 300 ms, 350 ms and 600 ms after power-on, the first and the third are
accepted, and they are at least 200 ms apart. -/
theorem at_most_one_toggle_per_window_witness :
    (trace_events joystick_button_callback joystick_accepted power_on
        [300000, 350000, 600000]).getD 0 false = true
    ∧ (trace_events joystick_button_callback joystick_accepted power_on
        [300000, 350000, 600000]).getD 2 false = true
    ∧ [300000, 350000, 600000].getD 0 0 + 200000 ≤ [300000, 350000, 600000].getD 2 0 :=
  ⟨by decide, by decide,
    (at_most_one_toggle_per_window power_on [300000, 350000, 600000] (by decide) 0 2
      (by decide)).1 (by decide) (by decide)⟩

/-! ## Debounced event latch: wraparound, discard and accept -/

/-- Claim C4: for all true times `t1 ≤ t2` less than `2^32` apart, the 32-bit
unsigned subtraction of the reading of `t1` from the reading of `t2` equals
`t2 - t1`; hence a handler whose timer holds the reading of `t1` and which is
called with the reading of `t2` accepts the event if and only if
`t2 - t1 ≥ 200000`.  Stated for the joystick handler and the button-A handler. -/
theorem debounce_correct_across_wraparound (s : Globals) (t1 t2 : Nat)
    (h12 : t1 ≤ t2) (hlt : t2 - t1 < 4294967296) :
    sub_u32 (time_us_32 t2) (time_us_32 t1) = t2 - t1
    ∧ (s.last_debounce_time_joystick = time_us_32 t1 →
        (joystick_accepted (time_us_32 t2) s = true ↔ 200000 ≤ t2 - t1))
    ∧ (s.last_debounce_time_buttonA = time_us_32 t1 →
        (button_a_accepted (time_us_32 t2) s = true ↔ 200000 ≤ t2 - t1)) := by
  have hsub : sub_u32 (time_us_32 t2) (time_us_32 t1) = t2 - t1 :=
    sub_u32_readings t1 t2 h12 hlt
  refine ⟨hsub, ?_, ?_⟩
  · intro hs
    rw [joystick_accepted_iff, hs, hsub]
  · intro hs
    rw [button_a_accepted_iff, hs, hsub]

/-- Witness of claim C4: the timer holds the
reading 4294900000 taken shortly before the clock wraps, and the next edge comes
300 ms later, after the wrap, with the numerically smaller reading 232704; it is
accepted. -/
theorem debounce_correct_across_wraparound_witness :
    time_us_32 4295200000 = 232704
    ∧ joystick_accepted (time_us_32 4295200000)
        { power_on with last_debounce_time_joystick := 4294900000 } = true :=
  ⟨by decide,
    ((debounce_correct_across_wraparound
        { power_on with last_debounce_time_joystick := 4294900000 }
        4294900000 4295200000 (by decide) (by decide)).2.1 (by decide)).mpr (by decide)⟩

/-- Claim C5: a discarded event is a complete no-op.  For every state and every
timestamp `now` with `(now - last) mod 2^32 < 200000` for the timer of the
button, the handler returns the globals exactly as they were: all five shared
variables, the timer of the button included, are unchanged. -/
theorem discarded_event_is_noop (s : Globals) (now : Nat) :
    (((now : Int) - (s.last_debounce_time_joystick : Int)) % 4294967296 < 200000 →
      joystick_button_callback now s = s)
    ∧ (((now : Int) - (s.last_debounce_time_buttonA : Int)) % 4294967296 < 200000 →
      button_a_callback now s = s) := by
  constructor
  · intro h
    rw [← sub_u32_eq_emod] at h
    exact joystick_discard now s (by exact_mod_cast h)
  · intro h
    rw [← sub_u32_eq_emod] at h
    exact button_a_discard now s (by exact_mod_cast h)

/-- Witness of claim C5: 50 ms after an accepted press at
reading 4294950000, across the clock wrap, both handlers leave the globals
untouched. -/
theorem discarded_event_is_noop_witness :
    joystick_button_callback 32704
        { led_green_on := true, led_pwm_enabled := false,
          last_debounce_time_joystick := 4294950000,
          last_debounce_time_buttonA := 4294950000, border_style := 1 }
      = { led_green_on := true, led_pwm_enabled := false,
          last_debounce_time_joystick := 4294950000,
          last_debounce_time_buttonA := 4294950000, border_style := 1 }
    ∧ button_a_callback 32704
        { led_green_on := true, led_pwm_enabled := false,
          last_debounce_time_joystick := 4294950000,
          last_debounce_time_buttonA := 4294950000, border_style := 1 }
      = { led_green_on := true, led_pwm_enabled := false,
          last_debounce_time_joystick := 4294950000,
          last_debounce_time_buttonA := 4294950000, border_style := 1 } :=
  ⟨(discarded_event_is_noop
      { led_green_on := true, led_pwm_enabled := false,
        last_debounce_time_joystick := 4294950000,
        last_debounce_time_buttonA := 4294950000, border_style := 1 } 32704).1 (by decide),
   (discarded_event_is_noop
      { led_green_on := true, led_pwm_enabled := false,
        last_debounce_time_joystick := 4294950000,
        last_debounce_time_buttonA := 4294950000, border_style := 1 } 32704).2 (by decide)⟩

/-- Claim C6: an accepted joystick-button event applies exactly one toggle to
its bits.  For every state and every `now` with
`(now - last_debounce_time_joystick) mod 2^32 ≥ 200000`, after
`joystick_button_callback` the timer equals `now`, `led_green_on` is the negation
of its old value, and `border_style` is 1 if it was 0 and 0 otherwise. -/
theorem accepted_joystick_event_toggles (s : Globals) (now : Nat)
    (h : 200000 ≤ ((now : Int) - (s.last_debounce_time_joystick : Int)) % 4294967296) :
    (joystick_button_callback now s).last_debounce_time_joystick = now
    ∧ (joystick_button_callback now s).led_green_on = !s.led_green_on
    ∧ (s.border_style = 0 → (joystick_button_callback now s).border_style = 1)
    ∧ (s.border_style ≠ 0 → (joystick_button_callback now s).border_style = 0) := by
  rw [← sub_u32_eq_emod] at h
  rw [joystick_accept now s (by exact_mod_cast h)]
  refine ⟨rfl, rfl, ?_, ?_⟩
  · intro hb
    simp [hb]
  · intro hb
    simp [hb]

/-- Witness of claim C6: the first press one second
after power-on. -/
theorem accepted_joystick_event_toggles_witness :
    (joystick_button_callback 1000000 power_on).last_debounce_time_joystick = 1000000
    ∧ (joystick_button_callback 1000000 power_on).led_green_on = true
    ∧ (joystick_button_callback 1000000 power_on).border_style = 1 :=
  ⟨(accepted_joystick_event_toggles power_on 1000000 (by decide)).1,
   (accepted_joystick_event_toggles power_on 1000000 (by decide)).2.1,
   (accepted_joystick_event_toggles power_on 1000000 (by decide)).2.2.1 (by decide)⟩

/-- Claim C7: an accepted button-A event applies exactly one toggle to its bit.
For every state and every `now` with
`(now - last_debounce_time_buttonA) mod 2^32 ≥ 200000`, after `button_a_callback`
the timer equals `now` and `led_pwm_enabled` is the negation of its old value. -/
theorem accepted_button_a_event_toggles (s : Globals) (now : Nat)
    (h : 200000 ≤ ((now : Int) - (s.last_debounce_time_buttonA : Int)) % 4294967296) :
    (button_a_callback now s).last_debounce_time_buttonA = now
    ∧ (button_a_callback now s).led_pwm_enabled = !s.led_pwm_enabled := by
  rw [← sub_u32_eq_emod] at h
  rw [button_a_accept now s (by exact_mod_cast h)]
  exact ⟨rfl, rfl⟩

/-- Witness of claim C7: the first press one second
after power-on switches the PWM LEDs off. -/
theorem accepted_button_a_event_toggles_witness :
    (button_a_callback 1000000 power_on).last_debounce_time_buttonA = 1000000
    ∧ (button_a_callback 1000000 power_on).led_pwm_enabled = false :=
  ⟨(accepted_button_a_event_toggles power_on 1000000 (by decide)).1,
   (accepted_button_a_event_toggles power_on 1000000 (by decide)).2⟩

/-! ## Basic facts about the coordinate mapping -/

/-- The rational floor of the reference formula is integer floor division. -/
theorem mapToCoordinate_spec_eq (sample : Nat) (maxCoord : Int) :
    mapToCoordinate_spec sample maxCoord = ((sample : Int) * maxCoord) / 4095 := by
  unfold mapToCoordinate_spec
  have h := Rat.floor_intCast_div_natCast ((sample : Int) * maxCoord) 4095
  push_cast at h
  exact h

/-- Without overflow of the product, the C expression is the floor division. -/
theorem map_adc_to_coord_eq (adc_value : Nat) (max_coord : Int) (h0 : 0 ≤ max_coord)
    (h : (adc_value : Int) * max_coord ≤ 2147483647) :
    map_adc_to_coord adc_value max_coord = ((adc_value : Int) * max_coord) / 4095 := by
  have hp : 0 ≤ (adc_value : Int) * max_coord := mul_nonneg (Int.ofNat_nonneg _) h0
  unfold map_adc_to_coord wrap_i32
  generalize (adc_value : Int) * max_coord = p at h hp
  have hw : (p + 2147483648) % 4294967296 - 2147483648 = p := by omega
  rw [hw, Int.tdiv_eq_ediv hp (by norm_num)]

/-! ## Coordinate mapping -/

/-- Claim C8, refuted as stated: for the sample 4095 and the non-negative
32-bit value `max_coord = 524800` the product overflows; the wrapped `int`
computation returns -524032, which is neither the mathematical floor 524800 nor
inside `[0, max_coord]`. -/
theorem map_adc_to_coord_overflow_counterexample :
    map_adc_to_coord 4095 524800 = -524032
    ∧ mapToCoordinate_spec 4095 524800 = 524800
    ∧ ¬ (0 ≤ map_adc_to_coord 4095 524800) := by
  refine ⟨by decide, ?_, by decide⟩
  rw [mapToCoordinate_spec_eq]
  decide

/-- Claim C8, amended: for every sample in 0..4095 and every non-negative
`max_coord` for which the product `sample * max_coord` fits a 32-bit `int`
(at most `2^31 - 1`; this holds for every sample when `max_coord ≤ 524416`),
the result of `map_adc_to_coord` in the C integer arithmetic equals the
mathematical floor of `sample * max_coord / 4095` and lies in `[0, max_coord]`. -/
theorem map_adc_to_coord_in_range (sample : Nat) (max_coord : Int) (hs : sample ≤ 4095)
    (h0 : 0 ≤ max_coord) (h : (sample : Int) * max_coord ≤ 2147483647) :
    map_adc_to_coord sample max_coord = mapToCoordinate_spec sample max_coord
    ∧ 0 ≤ map_adc_to_coord sample max_coord
    ∧ map_adc_to_coord sample max_coord ≤ max_coord := by
  have hp : 0 ≤ (sample : Int) * max_coord := mul_nonneg (Int.ofNat_nonneg _) h0
  have hle : (sample : Int) * max_coord ≤ 4095 * max_coord :=
    mul_le_mul_of_nonneg_right (by exact_mod_cast hs) h0
  rw [map_adc_to_coord_eq sample max_coord h0 h, mapToCoordinate_spec_eq]
  generalize (sample : Int) * max_coord = p at h hp hle
  omega

/-- Witness of claim C8: the sample 3000 on the horizontal
axis of the display (`max_coord = 120`) maps to 87. -/
theorem map_adc_to_coord_in_range_witness :
    map_adc_to_coord 3000 120 = 87
    ∧ map_adc_to_coord 3000 120 = mapToCoordinate_spec 3000 120
    ∧ 0 ≤ map_adc_to_coord 3000 120
    ∧ map_adc_to_coord 3000 120 ≤ 120 :=
  ⟨by decide, map_adc_to_coord_in_range 3000 120 (by decide) (by decide) (by decide)⟩

/-- Claim C9: endpoints of `map_adc_to_coord`.  For every `max_coord ≥ 0` with
`4095 * max_coord ≤ 2^31 - 1` (no `int` overflow), `map_adc_to_coord(0, max_coord)`
is 0 and `map_adc_to_coord(4095, max_coord)` is exactly `max_coord`. -/
theorem map_adc_to_coord_endpoints (max_coord : Int) (h0 : 0 ≤ max_coord)
    (h : 4095 * max_coord ≤ 2147483647) :
    map_adc_to_coord 0 max_coord = 0 ∧ map_adc_to_coord 4095 max_coord = max_coord := by
  constructor
  · rw [map_adc_to_coord_eq 0 max_coord h0 (by simp)]
    simp
  · rw [map_adc_to_coord_eq 4095 max_coord h0 (by push_cast; exact h)]
    push_cast
    omega

/-- Witness of claim C9: the largest `max_coord` without
overflow, 524416. -/
theorem map_adc_to_coord_endpoints_witness :
    map_adc_to_coord 0 524416 = 0 ∧ map_adc_to_coord 4095 524416 = 524416 :=
  map_adc_to_coord_endpoints 524416 (by decide) (by decide)

/-- Claim C10: `map_adc_to_coord` is monotonic non-decreasing in the sample.
For every `max_coord ≥ 0` with `4095 * max_coord ≤ 2^31 - 1` and all samples
`s1 ≤ s2 ≤ 4095`, `map_adc_to_coord(s1, max_coord) ≤ map_adc_to_coord(s2, max_coord)`. -/
theorem map_adc_to_coord_monotone (max_coord : Int) (s1 s2 : Nat) (h0 : 0 ≤ max_coord)
    (h : 4095 * max_coord ≤ 2147483647) (h12 : s1 ≤ s2) (h2 : s2 ≤ 4095) :
    map_adc_to_coord s1 max_coord ≤ map_adc_to_coord s2 max_coord := by
  have e1 : (s1 : Int) * max_coord ≤ (s2 : Int) * max_coord :=
    mul_le_mul_of_nonneg_right (by exact_mod_cast h12) h0
  have e2 : (s2 : Int) * max_coord ≤ 4095 * max_coord :=
    mul_le_mul_of_nonneg_right (by exact_mod_cast h2) h0
  rw [map_adc_to_coord_eq s1 max_coord h0 (by omega),
    map_adc_to_coord_eq s2 max_coord h0 (by omega)]
  generalize (s1 : Int) * max_coord = p at e1
  generalize (s2 : Int) * max_coord = q at e1 e2
  omega

/-- Witness of claim C10: the samples 1000 and 3000 on the
vertical axis of the display (`max_coord = 56`) map to 13 and 41. -/
theorem map_adc_to_coord_monotone_witness :
    map_adc_to_coord 1000 56 = 13 ∧ map_adc_to_coord 3000 56 = 41
    ∧ map_adc_to_coord 1000 56 ≤ map_adc_to_coord 3000 56 :=
  ⟨by decide, by decide,
    map_adc_to_coord_monotone 56 1000 3000 (by decide) (by decide) (by decide) (by decide)⟩

/-! ## Basic facts about the brightness mapping -/

/-- The local `diff` is never negative. -/
theorem brightness_diff_nonneg (a : Nat) : 0 ≤ brightness_diff a := by
  unfold brightness_diff
  split <;> omega

/-- The local `diff` is the absolute distance from 2048. -/
theorem brightness_diff_eq_abs (a : Nat) : brightness_diff a = |(a : Int) - 2048| := by
  unfold brightness_diff
  split
  · rw [abs_of_nonneg (by omega)]
  · rw [abs_of_nonpos (by omega)]; omega

/-- For every `uint16_t` sample the C computation is the clamped floor division. -/
theorem map_adc_to_brightness_eq (a : Nat) (h : a ≤ 65535) :
    (map_adc_to_brightness a : Int) = min 255 ((brightness_diff a * 255) / 2048) := by
  have h0 := brightness_diff_nonneg a
  have hu : brightness_diff a ≤ 63487 := by
    unfold brightness_diff
    split <;> omega
  unfold map_adc_to_brightness to_u32 wrap_i32 LED_PWM_WRAP
  simp only []
  generalize brightness_diff a = d at h0 hu
  have hw : (d * ((255 : Nat) : Int) + 2147483648) % 4294967296 - 2147483648 = d * 255 := by
    push_cast
    omega
  rw [hw, Int.tdiv_eq_ediv (by omega) (by norm_num)]
  have hq0 : 0 ≤ d * 255 / 2048 := by omega
  have hq1 : d * 255 / 2048 ≤ 7905 := by omega
  generalize d * 255 / 2048 = q at hq0 hq1
  have hm : q % 4294967296 = q := by omega
  rw [hm]
  split <;> omega

/-- The rational floor of the reference formula is integer floor division. -/
theorem mapToBrightness_spec_eq (a : Nat) :
    mapToBrightness_spec a = min 255 ((brightness_diff a * 255) / 2048) := by
  unfold mapToBrightness_spec
  have h := Rat.floor_intCast_div_natCast (|(a : Int) - 2048| * 255) 2048
  push_cast at h
  rw [h, brightness_diff_eq_abs]


/-! ## Brightness mapping -/

/-- Claim C11: `map_adc_to_brightness` equals its reference formula.  For every
sample in 0..4095 the result is `min(255, floor(|sample - 2048| * 255 / 2048))`;
the product `diff * 255` stays inside the range of a 32-bit `int` (no
intermediate overflow), and the result is in 0..255. -/
theorem map_adc_to_brightness_matches_reference (sample : Nat) (hs : sample ≤ 4095) :
    (map_adc_to_brightness sample : Int) = mapToBrightness_spec sample
    ∧ (0 ≤ brightness_diff sample * 255 ∧ brightness_diff sample * 255 ≤ 2147483647)
    ∧ map_adc_to_brightness sample ≤ 255 := by
  have he := map_adc_to_brightness_eq sample (by omega)
  refine ⟨?_, ?_, ?_⟩
  · rw [he, mapToBrightness_spec_eq]
  · unfold brightness_diff
    split <;> omega
  · have : (map_adc_to_brightness sample : Int) ≤ 255 := by
      rw [he]
      exact min_le_left _ _
    exact_mod_cast this

/-- Witness of claim C11: the sample 1000 maps to brightness 130. -/
theorem map_adc_to_brightness_matches_reference_witness :
    map_adc_to_brightness 1000 = 130
    ∧ (map_adc_to_brightness 1000 : Int) = mapToBrightness_spec 1000
    ∧ map_adc_to_brightness 1000 ≤ 255 :=
  ⟨by decide, (map_adc_to_brightness_matches_reference 1000 (by decide)).1,
    (map_adc_to_brightness_matches_reference 1000 (by decide)).2.2⟩

/-- Claim C12: the three fixed points of the brightness mapping hold exactly:
`map_adc_to_brightness(2048) = 0`, `map_adc_to_brightness(0) = 255` and
`map_adc_to_brightness(4095) = 254` (the asymmetric saturation, not 255). -/
theorem map_adc_to_brightness_fixed_points :
    map_adc_to_brightness 2048 = 0 ∧ map_adc_to_brightness 0 = 255
    ∧ map_adc_to_brightness 4095 = 254 := by
  decide

/-- Claim C13: `map_adc_to_brightness` is monotonic away from the centre in both
directions.  For samples `2048 ≤ s1 ≤ s2 ≤ 4095` the brightness of `s1` is at
most that of `s2`; for samples `s1 ≤ s2 ≤ 2048` the brightness of `s1` is at
least that of `s2`. -/
theorem map_adc_to_brightness_monotone_from_centre (s1 s2 : Nat) (h12 : s1 ≤ s2) :
    (2048 ≤ s1 → s2 ≤ 4095 → map_adc_to_brightness s1 ≤ map_adc_to_brightness s2)
    ∧ (s2 ≤ 2048 → map_adc_to_brightness s2 ≤ map_adc_to_brightness s1) := by
  constructor
  · intro h1 h2
    have e1 := map_adc_to_brightness_eq s1 (by omega)
    have e2 := map_adc_to_brightness_eq s2 (by omega)
    have d1 : brightness_diff s1 = (s1 : Int) - 2048 := by
      unfold brightness_diff; split <;> omega
    have d2 : brightness_diff s2 = (s2 : Int) - 2048 := by
      unfold brightness_diff; split <;> omega
    rw [d1] at e1
    rw [d2] at e2
    omega
  · intro h2
    have e1 := map_adc_to_brightness_eq s1 (by omega)
    have e2 := map_adc_to_brightness_eq s2 (by omega)
    have d1 : brightness_diff s1 = 2048 - (s1 : Int) := by
      unfold brightness_diff; split <;> omega
    have d2 : brightness_diff s2 = 2048 - (s2 : Int) := by
      unfold brightness_diff; split <;> omega
    rw [d1] at e1
    rw [d2] at e2
    omega

/-- Witness of claim C13: above the centre 3000 and 4095 map to 118 and 254;
below the centre 0 and 1000 map to 255 and 130. -/
theorem map_adc_to_brightness_monotone_from_centre_witness :
    (map_adc_to_brightness 3000 = 118 ∧ map_adc_to_brightness 4095 = 254
      ∧ map_adc_to_brightness 3000 ≤ map_adc_to_brightness 4095)
    ∧ (map_adc_to_brightness 0 = 255 ∧ map_adc_to_brightness 1000 = 130
      ∧ map_adc_to_brightness 1000 ≤ map_adc_to_brightness 0) :=
  ⟨⟨by decide, by decide,
      (map_adc_to_brightness_monotone_from_centre 3000 4095 (by decide)).1
        (by decide) (by decide)⟩,
    ⟨by decide, by decide,
      (map_adc_to_brightness_monotone_from_centre 0 1000 (by decide)).2 (by decide)⟩⟩

/-! ## Render/output cycle: one tick -/

/-- Claim C14: LED outputs of one tick of the main loop.  For every pair of
samples and every control state, when `led_pwm_enabled` is false the red and
blue duty levels pushed are both 0 whatever the samples, and when it is true
they are `map_adc_to_brightness(adc_x)` and `map_adc_to_brightness(adc_y)`; the
green duty level is 255 when `led_green_on` is true and 0 when it is false,
independently of `led_pwm_enabled` and of the samples. -/
theorem tick_led_outputs (adc_x adc_y : Nat) (s : Globals) :
    (s.led_pwm_enabled = false → s.led_green_on = true →
      pwm_calls (tick adc_x adc_y s) = [(11, 0), (12, 0), (13, 255)])
    ∧ (s.led_pwm_enabled = false → s.led_green_on = false →
      pwm_calls (tick adc_x adc_y s) = [(11, 0), (12, 0), (13, 0)])
    ∧ (s.led_pwm_enabled = true → s.led_green_on = true →
      pwm_calls (tick adc_x adc_y s)
        = [(11, map_adc_to_brightness adc_x), (12, map_adc_to_brightness adc_y), (13, 255)])
    ∧ (s.led_pwm_enabled = true → s.led_green_on = false →
      pwm_calls (tick adc_x adc_y s)
        = [(11, map_adc_to_brightness adc_x), (12, map_adc_to_brightness adc_y), (13, 0)]) := by
  refine ⟨?_, ?_, ?_, ?_⟩ <;> intro hp hg <;>
    by_cases hb : s.border_style = 0 <;>
    simp [tick, tick_reads, pwm_calls, set_led_brightness, hp, hg, hb, LED_RED_PIN,
      LED_BLUE_PIN, LED_GREEN_PIN, LED_PWM_WRAP]

/-- Witness of claim C14: with the PWM LEDs disabled and the green LED on, the
samples 4095 and 0 give the levels 0, 0 and 255; in the power-on state they give
254, 255 and 0. -/
theorem tick_led_outputs_witness :
    pwm_calls (tick 4095 0
        { led_green_on := true, led_pwm_enabled := false,
          last_debounce_time_joystick := 1000000,
          last_debounce_time_buttonA := 1000000, border_style := 1 })
      = [(11, 0), (12, 0), (13, 255)]
    ∧ pwm_calls (tick 4095 0 power_on) = [(11, 254), (12, 255), (13, 0)] :=
  ⟨(tick_led_outputs 4095 0
      { led_green_on := true, led_pwm_enabled := false,
        last_debounce_time_joystick := 1000000,
        last_debounce_time_buttonA := 1000000, border_style := 1 }).1 (by decide) (by decide),
   (tick_led_outputs 4095 0 power_on).2.2.2 (by decide) (by decide)⟩

/-- Claim C15: display commands of one tick.  For the same samples, the tick
with `border_style = 0` issues clear, the full outline `rect(0,0,128,64)`, the
filled 8x8 square at `(map_adc_to_coord(adc_x,120), map_adc_to_coord(adc_y,56))`
and show, in that order; the tick with `border_style = 1` issues the same calls
with the inset outline `rect(2,2,124,60)` added right after the full outline.
The filled-square call is the same in both. -/
theorem tick_display_calls (adc_x adc_y : Nat) (s : Globals) :
    (s.border_style = 0 →
      display_calls (tick adc_x adc_y s)
        = [Call.ssd1306_clear,
           Call.ssd1306_draw_rect 0 0 128 64 true,
           Call.ssd1306_fill_rect (map_adc_to_coord adc_x 120) (map_adc_to_coord adc_y 56)
             8 8 true,
           Call.ssd1306_show])
    ∧ (s.border_style = 1 →
      display_calls (tick adc_x adc_y s)
        = [Call.ssd1306_clear,
           Call.ssd1306_draw_rect 0 0 128 64 true,
           Call.ssd1306_draw_rect 2 2 124 60 true,
           Call.ssd1306_fill_rect (map_adc_to_coord adc_x 120) (map_adc_to_coord adc_y 56)
             8 8 true,
           Call.ssd1306_show]) := by
  constructor <;> intro hb <;>
    simp [tick, tick_reads, display_calls, set_led_brightness, hb, DISPLAY_WIDTH,
      DISPLAY_HEIGHT, SQUARE_SIZE]

/-- Witness of claim C15: the centred joystick (samples 2048, 2048) in the
power-on state (style 0) and after one accepted joystick press (style 1). -/
theorem tick_display_calls_witness :
    display_calls (tick 2048 2048 power_on)
      = [Call.ssd1306_clear,
         Call.ssd1306_draw_rect 0 0 128 64 true,
         Call.ssd1306_fill_rect 60 28 8 8 true,
         Call.ssd1306_show]
    ∧ display_calls (tick 2048 2048 (joystick_button_callback 1000000 power_on))
      = [Call.ssd1306_clear,
         Call.ssd1306_draw_rect 0 0 128 64 true,
         Call.ssd1306_draw_rect 2 2 124 60 true,
         Call.ssd1306_fill_rect 60 28 8 8 true,
         Call.ssd1306_show] :=
  ⟨(tick_display_calls 2048 2048 power_on).1 (by decide),
   (tick_display_calls 2048 2048 (joystick_button_callback 1000000 power_on)).2 (by decide)⟩

/-! ## Independence of the two buttons -/

/-- Claim C16: the two buttons are independent.  For every state and all
timestamps `tj` and `ta` (equal ones included), `joystick_button_callback` leaves
`led_pwm_enabled` and `last_debounce_time_buttonA` unchanged, `button_a_callback`
leaves `led_green_on`, `border_style` and `last_debounce_time_joystick`
unchanged; running the two handlers in either order gives the same final state,
and whether one button is accepted does not depend on whether the other handler
ran before it (no lost toggle, no spurious toggle). -/
theorem buttons_independent (s : Globals) (tj ta : Nat) :
    ((joystick_button_callback tj s).led_pwm_enabled = s.led_pwm_enabled
      ∧ (joystick_button_callback tj s).last_debounce_time_buttonA
          = s.last_debounce_time_buttonA)
    ∧ ((button_a_callback ta s).led_green_on = s.led_green_on
      ∧ (button_a_callback ta s).border_style = s.border_style
      ∧ (button_a_callback ta s).last_debounce_time_joystick
          = s.last_debounce_time_joystick)
    ∧ joystick_button_callback tj (button_a_callback ta s)
        = button_a_callback ta (joystick_button_callback tj s)
    ∧ joystick_accepted tj (button_a_callback ta s) = joystick_accepted tj s
    ∧ button_a_accepted ta (joystick_button_callback tj s) = button_a_accepted ta s := by
  unfold joystick_accepted button_a_accepted joystick_button_callback button_a_callback
  by_cases hj : sub_u32 tj s.last_debounce_time_joystick < DEBOUNCE_DELAY_US <;>
    by_cases ha : sub_u32 ta s.last_debounce_time_buttonA < DEBOUNCE_DELAY_US <;>
    simp [hj, ha]

/-! ## A tick preempted by a joystick-button interrupt -/

/-- Claim C17, refuted as stated: a joystick-button press served after the tick
has read `led_green_on` (line 165) and before it reads `border_style` (line 173)
gives a tick that pushes the green level 0 of the state before the toggle and
draws the two outlines of the state after it.  This output is neither the tick
of the state before the toggle nor the tick of the state after it. -/
theorem preempted_tick_mixed_snapshot_counterexample :
    pwm_calls (tick_preempted 2 1000000 2048 2048 power_on) = [(11, 0), (12, 0), (13, 0)]
    ∧ display_calls (tick_preempted 2 1000000 2048 2048 power_on)
      = [Call.ssd1306_clear,
         Call.ssd1306_draw_rect 0 0 128 64 true,
         Call.ssd1306_draw_rect 2 2 124 60 true,
         Call.ssd1306_fill_rect 60 28 8 8 true,
         Call.ssd1306_show]
    ∧ tick_preempted 2 1000000 2048 2048 power_on ≠ tick 2048 2048 power_on
    ∧ tick_preempted 2 1000000 2048 2048 power_on
        ≠ tick 2048 2048 (joystick_button_callback 1000000 power_on) := by
  decide

/-- Claim C17, amended: the tick takes no snapshot; it reads `led_green_on` when
it pushes the green level and `border_style` later, when it draws the border.
For a joystick-button interrupt served after `k` of the three reads of the tick:
with `k ≤ 1` the whole tick is that of the state after the handler, with `k ≥ 3`
it is that of the state before, and with `k = 2` the tick pushes the green level
of the state before and draws the border of the state after.  When the event is
accepted the tick never reads `led_green_on` updated together with
`border_style` stale. -/
theorem preempted_tick_reads (k now adc_x adc_y : Nat) (s : Globals) :
    (k ≤ 1 →
      tick_preempted k now adc_x adc_y s = tick adc_x adc_y (joystick_button_callback now s))
    ∧ (3 ≤ k → tick_preempted k now adc_x adc_y s = tick adc_x adc_y s)
    ∧ (k = 2 →
      tick_preempted k now adc_x adc_y s
        = tick_reads adc_x adc_y s.led_pwm_enabled s.led_green_on
            (joystick_button_callback now s).border_style)
    ∧ (joystick_accepted now s = true →
      ¬ ((globals_at_read k now s 1).led_green_on
            = (joystick_button_callback now s).led_green_on
          ∧ (globals_at_read k now s 2).border_style = s.border_style)) := by
  have hpwm : (joystick_button_callback now s).led_pwm_enabled = s.led_pwm_enabled := by
    unfold joystick_button_callback
    split <;> rfl
  refine ⟨?_, ?_, ?_, ?_⟩
  · intro hk
    have h0 : ¬ (1 < k) := by omega
    have h1 : ¬ (2 < k) := by omega
    by_cases hz : 0 < k <;>
      simp [tick_preempted, tick, globals_at_read, h0, h1, hz, hpwm]
  · intro hk
    have h0 : 0 < k := by omega
    have h1 : 1 < k := by omega
    have h2 : 2 < k := by omega
    simp [tick_preempted, tick, globals_at_read, h0, h1, h2]
  · intro hk
    subst hk
    simp [tick_preempted, globals_at_read]
  · intro hacc
    have hge := (joystick_accepted_iff now s).mp hacc
    have hs := joystick_accept now s hge
    rintro ⟨hg, hb⟩
    by_cases h1 : 1 < k
    · simp [globals_at_read, h1, hs] at hg
    · have h2 : ¬ (2 < k) := by omega
      simp only [globals_at_read, h2, if_false, hs] at hb
      by_cases hz : s.border_style = 0
      · simp [hz] at hb
      · simp only [hz, if_false] at hb
        exact hz hb.symm

/-- Witness of claim C17: the first joystick press one second after power-on.
Served before the tick reads `led_green_on` the tick is entirely that of the new
state, served after the read of `border_style` it is entirely that of the old
state, and the accepted press is never seen as green updated with border stale. -/
theorem preempted_tick_reads_witness :
    tick_preempted 1 1000000 2048 2048 power_on
        = tick 2048 2048 (joystick_button_callback 1000000 power_on)
    ∧ tick_preempted 3 1000000 2048 2048 power_on = tick 2048 2048 power_on
    ∧ ¬ ((globals_at_read 2 1000000 power_on 1).led_green_on
            = (joystick_button_callback 1000000 power_on).led_green_on
          ∧ (globals_at_read 2 1000000 power_on 2).border_style = power_on.border_style) :=
  ⟨(preempted_tick_reads 1 1000000 2048 2048 power_on).1 (by decide),
   (preempted_tick_reads 3 1000000 2048 2048 power_on).2.1 (by decide),
   (preempted_tick_reads 2 1000000 2048 2048 power_on).2.2.2 (by decide)⟩

/-! ## Reachable states -/

/-- A handler call keeps the two joystick bits linked: `border_style` is 0 with
the green LED off, or 1 with the green LED on. -/
theorem handle_event_linked (e : Event) (s : Globals)
    (h : (s.border_style = 0 ∧ s.led_green_on = false)
      ∨ (s.border_style = 1 ∧ s.led_green_on = true)) :
    ((handle_event e s).border_style = 0 ∧ (handle_event e s).led_green_on = false)
      ∨ ((handle_event e s).border_style = 1 ∧ (handle_event e s).led_green_on = true) := by
  cases e with
  | joystick_button now =>
    simp only [handle_event, joystick_button_callback]
    split
    · exact h
    · rcases h with ⟨hb, hg⟩ | ⟨hb, hg⟩ <;> simp [hb, hg]
  | button_a now =>
    simp only [handle_event, button_a_callback]
    split
    · exact h
    · exact h

/-- Any sequence of handler calls keeps the two joystick bits linked. -/
theorem handle_events_linked (es : List Event) :
    ∀ s : Globals,
      ((s.border_style = 0 ∧ s.led_green_on = false)
        ∨ (s.border_style = 1 ∧ s.led_green_on = true)) →
      (((handle_events s es).border_style = 0 ∧ (handle_events s es).led_green_on = false)
        ∨ ((handle_events s es).border_style = 1
          ∧ (handle_events s es).led_green_on = true)) := by
  induction es with
  | nil => intro s h; exact h
  | cons e es ih => intro s h; exact ih _ (handle_event_linked e s h)

/-- Claim C18: in every state reached from the power-on state by any sequence
of `joystick_button_callback` and `button_a_callback` calls with arbitrary
timestamps, `border_style` is 0 or 1 and `led_green_on` is true exactly when
`border_style = 1`. -/
theorem joystick_bits_flip_together (es : List Event) :
    ((handle_events power_on es).border_style = 0
      ∨ (handle_events power_on es).border_style = 1)
    ∧ ((handle_events power_on es).led_green_on = true
      ↔ (handle_events power_on es).border_style = 1) := by
  have h := handle_events_linked es power_on (Or.inl ⟨rfl, rfl⟩)
  rcases h with ⟨hb, hg⟩ | ⟨hb, hg⟩ <;> simp [hb, hg]

/-! ## The square stays on the display -/

/-- Claim C19: the filled square always lies entirely inside the 128x64
display.  For all samples `adc_x` and `adc_y` in 0..4095 the tick issues the
fill call at `(map_adc_to_coord(adc_x,120), map_adc_to_coord(adc_y,56))` with
size 8x8, and every fill call of the tick has `0 ≤ x ≤ 120`, `0 ≤ y ≤ 56`,
`x + w ≤ 128` and `y + h ≤ 64`. -/
theorem square_inside_display (adc_x adc_y : Nat) (s : Globals) (hx : adc_x ≤ 4095)
    (hy : adc_y ≤ 4095) :
    Call.ssd1306_fill_rect (map_adc_to_coord adc_x 120) (map_adc_to_coord adc_y 56) 8 8 true
      ∈ tick adc_x adc_y s
    ∧ (∀ x y w h v, Call.ssd1306_fill_rect x y w h v ∈ tick adc_x adc_y s →
        (0 ≤ x ∧ x ≤ 120) ∧ (0 ≤ y ∧ y ≤ 56) ∧ x + w ≤ 128 ∧ y + h ≤ 64) := by
  have bx : 0 ≤ map_adc_to_coord adc_x 120 ∧ map_adc_to_coord adc_x 120 ≤ 120 := by
    rw [map_adc_to_coord_eq adc_x 120 (by norm_num) (by omega)]
    omega
  have by_ : 0 ≤ map_adc_to_coord adc_y 56 ∧ map_adc_to_coord adc_y 56 ≤ 56 := by
    rw [map_adc_to_coord_eq adc_y 56 (by norm_num) (by omega)]
    omega
  constructor
  · by_cases hb : s.border_style = 0 <;>
      simp [tick, tick_reads, set_led_brightness, hb, DISPLAY_WIDTH, DISPLAY_HEIGHT,
        SQUARE_SIZE]
  · intro x y w h v hm
    have : x = map_adc_to_coord adc_x 120 ∧ y = map_adc_to_coord adc_y 56 ∧ w = 8 ∧ h = 8 := by
      by_cases hb : s.border_style = 0 <;>
        simp [tick, tick_reads, set_led_brightness, hb, DISPLAY_WIDTH, DISPLAY_HEIGHT,
          SQUARE_SIZE] at hm <;>
        exact ⟨hm.1, hm.2.1, hm.2.2.1, hm.2.2.2.1⟩
    obtain ⟨h1, h2, h3, h4⟩ := this
    omega

/-- Witness of claim C19: at the extreme samples 4095 and 4095 the square is
drawn at (120, 56), its far corner exactly on the display corner (128, 64). -/
theorem square_inside_display_witness :
    Call.ssd1306_fill_rect 120 56 8 8 true ∈ tick 4095 4095 power_on
    ∧ ((0 : Int) ≤ 120 ∧ (120 : Int) ≤ 120) ∧ ((0 : Int) ≤ 56 ∧ (56 : Int) ≤ 56)
    ∧ (120 : Int) + 8 ≤ 128 ∧ (56 : Int) + 8 ≤ 64 :=
  ⟨by decide,
    (square_inside_display 4095 4095 power_on (by decide) (by decide)).2 120 56 8 8 true
      (by decide)⟩

end ConversoresAD
